import Mathlib

/-!
Shallow embedding of the schema-initialization layer of the semantic-cache
service: `semantic_cache/core/settings.py`, `semantic_cache/manager/data_manager/init_schema.py`
and `server/server.py`.  The two backing stores (Redis search index, Milvus
collection) are modelled by their observable schema state; each init function
is translated as a pure function from the settings and the store state to a
trace of store operations together with an `Except` outcome, following the
source's control flow (including its exception handling) line by line.
-/

namespace SemanticCache

/-! ## Settings (`semantic_cache/core/settings.py`)

`Settings(BaseSettings)` declares seven fields, all without defaults; pydantic
raises a validation error when any is missing from the environment. -/

structure Settings where
  REDIS_HOST : String
  REDIS_PORT : Int
  REDIS_INDEX_NAME : String
  MILVUS_HOST : String
  MILVUS_PORT : Int
  MILVUS_COLLECTION_NAME : String
  VECTOR_DIM : Int
deriving DecidableEq

/-- The environment as seen by pydantic `BaseSettings`: each declared field is
either supplied (with a value of its declared type) or absent. -/
structure Env where
  REDIS_HOST : Option String
  REDIS_PORT : Option Int
  REDIS_INDEX_NAME : Option String
  MILVUS_HOST : Option String
  MILVUS_PORT : Option Int
  MILVUS_COLLECTION_NAME : Option String
  VECTOR_DIM : Option Int

/-- `Settings()` construction: every field is required (no default), so
validation succeeds exactly when every field is present. -/
def Settings.fromEnv (e : Env) : Except String Settings :=
  match e.REDIS_HOST, e.REDIS_PORT, e.REDIS_INDEX_NAME,
        e.MILVUS_HOST, e.MILVUS_PORT, e.MILVUS_COLLECTION_NAME,
        e.VECTOR_DIM with
  | some rh, some rp, some ri, some mh, some mp, some mc, some vd =>
      Except.ok ⟨rh, rp, ri, mh, mp, mc, vd⟩
  | _, _, _, _, _, _, _ =>
      Except.error "validation error: field required"

def exceptIsOk {ε α : Type} : Except ε α → Bool
  | Except.ok _ => true
  | Except.error _ => false

/-! ## Redis schema initialization (`init_redis_schema`) -/

/-- Field kinds of the Redis search schema as used in the source:
`TagField`, `VectorField(name, algo, attrs)` and `NumericField`. -/
inductive RedisFieldType where
  | tag : RedisFieldType
  | vector (algorithm : String) (vtype : String) (dim : Int)
      (distanceMetric : String) (M : Nat) (efConstruction : Nat) : RedisFieldType
  | numeric : RedisFieldType
deriving DecidableEq

structure RedisField where
  name : String
  ftype : RedisFieldType
deriving DecidableEq

/-- `IndexDefinition(prefix=..., index_type=...)` from the source. -/
structure RedisIndexDefinition where
  prefixes : List String
  indexType : String
deriving DecidableEq

/-- `required_fields = {"course_id", "vector", "access_count", "last_accessed"}` -/
def requiredCacheFields : List String :=
  ["course_id", "vector", "access_count", "last_accessed"]

/-- The schema tuple passed to `create_index` in `init_redis_schema`. -/
def redisCacheSchema (s : Settings) : List RedisField :=
  [ ⟨"course_id", RedisFieldType.tag⟩,
    ⟨"vector", RedisFieldType.vector "HNSW" "FLOAT32" s.VECTOR_DIM "COSINE" 16 200⟩,
    ⟨"access_count", RedisFieldType.numeric⟩,
    ⟨"last_accessed", RedisFieldType.numeric⟩ ]

/-- `IndexDefinition(prefix=["cache:"], index_type=IndexType.HASH)` -/
def redisCacheIndexDefinition : RedisIndexDefinition :=
  ⟨["cache:"], "HASH"⟩

/-- Observable state of the Redis store: either the search index named
`REDIS_INDEX_NAME` is absent, or it exists with a set of indexed attribute
names (what `FT.INFO` reports as `attributes`). -/
inductive RedisStore where
  | noIndex : RedisStore
  | indexWith (attrs : List String) : RedisStore
deriving DecidableEq

/-- Store operations issued by `init_redis_schema` after the initial ping. -/
inductive RedisOp where
  | infoQuery : RedisOp
  | createIndex (schema : List RedisField) (defn : RedisIndexDefinition)
      (stopwords : List String) : RedisOp
deriving DecidableEq

def RedisOp.isCreateIndex : RedisOp → Bool
  | RedisOp.createIndex _ _ _ => true
  | _ => false

structure RedisRun where
  ops : List RedisOp
  result : Except String Unit

/-- `init_redis_schema`, assuming the connection/ping succeeded.

Control flow of the source: the `try` block calls `FT.INFO` (which raises
`RedisError` when the index does not exist) and then, when the required field
set is not a subset of the reported attributes, itself raises a
`RedisError` describing the mismatch.  Both errors are caught by the single
`except RedisError:` handler, whose body is the index-creation branch;
`FT.CREATE` succeeds when the index is absent and fails with an
already-exists error otherwise, which the inner handler rewraps. -/
def init_redis_schema (s : Settings) (store : RedisStore) : RedisRun :=
  match store with
  | RedisStore.noIndex =>
      -- info() raises, handler creates the index; creation succeeds.
      ⟨[RedisOp.infoQuery,
        RedisOp.createIndex (redisCacheSchema s) redisCacheIndexDefinition []],
       Except.ok ()⟩
  | RedisStore.indexWith attrs =>
      if requiredCacheFields.all (fun f => attrs.contains f) then
        ⟨[RedisOp.infoQuery], Except.ok ()⟩
      else
        -- the mismatch RedisError is caught by the same handler, which then
        -- attempts FT.CREATE on the existing index; that fails and is rewrapped.
        ⟨[RedisOp.infoQuery,
          RedisOp.createIndex (redisCacheSchema s) redisCacheIndexDefinition []],
         Except.error "Failed to create Redis index: Index already exists"⟩

/-- Effect of one Redis operation on the store: `FT.CREATE` materializes the
index (indexing the schema's attribute names) only when none exists; reads and
failed creations leave the store unchanged. -/
def applyRedisOp (store : RedisStore) (op : RedisOp) : RedisStore :=
  match op, store with
  | RedisOp.createIndex schema _ _, RedisStore.noIndex =>
      RedisStore.indexWith (schema.map RedisField.name)
  | _, st => st

def applyRedisOps (store : RedisStore) (ops : List RedisOp) : RedisStore :=
  ops.foldl applyRedisOp store

/-! ## Milvus schema initialization (`init_milvus_schema`) -/

inductive MilvusDataType where
  | INT64 : MilvusDataType
  | INT32 : MilvusDataType
  | VARCHAR : MilvusDataType
  | FLOAT_VECTOR : MilvusDataType
deriving DecidableEq

/-- `FieldSchema(...)` as constructed in the source; unspecified keyword
arguments default to `false` / `none`. -/
structure MilvusField where
  name : String
  dtype : MilvusDataType
  is_primary : Bool
  auto_id : Bool
  is_partition_key : Bool
  dim : Option Int
  max_length : Option Nat
deriving DecidableEq

/-- The schema-relevant view of a field of an existing collection, as read
through `col.schema.fields` in the validation branch. -/
structure MilvusExistingField where
  name : String
  is_partition_key : Bool
  dim : Option Int
deriving DecidableEq

/-- Observable state of the Milvus store: the collection named
`MILVUS_COLLECTION_NAME` is absent, or exists with the given fields. -/
inductive MilvusStore where
  | noCollection : MilvusStore
  | collectionWith (fields : List MilvusExistingField) : MilvusStore
deriving DecidableEq

/-- `fields = {f.name: f for f in col.schema.fields}`: a dict comprehension
keeps the last field of each name. -/
def fieldsDict (flds : List MilvusExistingField) (n : String) :
    Option MilvusExistingField :=
  flds.reverse.find? (fun f => f.name == n)

/-- `"course_id" in fields and fields["course_id"].is_partition_key` -/
def courseIdValid (flds : List MilvusExistingField) : Bool :=
  match fieldsDict flds "course_id" with
  | none => false
  | some f => f.is_partition_key

/-- Dimension of the (last) field named `vector`, when it has one. -/
def vectorDimOf (flds : List MilvusExistingField) : Option Int :=
  (fieldsDict flds "vector").bind (fun f => f.dim)

/-- The field list handed to `CollectionSchema` in the creation branch. -/
def milvusKnowledgeFields (s : Settings) : List MilvusField :=
  [ ⟨"id", MilvusDataType.INT64, true, true, false, none, none⟩,
    ⟨"course_id", MilvusDataType.INT64, false, false, true, none, none⟩,
    ⟨"vector", MilvusDataType.FLOAT_VECTOR, false, false, false, some s.VECTOR_DIM, none⟩,
    ⟨"doc_ref_id", MilvusDataType.VARCHAR, false, false, false, none, some 128⟩,
    ⟨"chunk_index", MilvusDataType.INT32, false, false, false, none, none⟩,
    ⟨"created_at", MilvusDataType.INT64, false, false, false, none, none⟩ ]

structure MilvusIndexParams where
  metric_type : String
  index_type : String
  M : Nat
  efConstruction : Nat
deriving DecidableEq

/-- `index_params` passed to `col.create_index("vector", index_params)`. -/
def milvusIndexParams : MilvusIndexParams :=
  ⟨"COSINE", "HNSW", 16, 200⟩

inductive MilvusOp where
  | hasCollectionQuery : MilvusOp
  | loadSchema : MilvusOp
  | createCollection (fields : List MilvusField) (description : String)
      (consistency_level : String) : MilvusOp
  | createIndex (field : String) (params : MilvusIndexParams) : MilvusOp
deriving DecidableEq

def MilvusOp.isWrite : MilvusOp → Bool
  | MilvusOp.createCollection _ _ _ => true
  | MilvusOp.createIndex _ _ => true
  | _ => false

structure MilvusRun where
  ops : List MilvusOp
  result : Except String Unit

/-- `init_milvus_schema`, assuming the connection succeeded.

When `utility.has_collection` is true, the source reads the schema and hard
fails unless `course_id` is a partition key and the `vector` field has
dimension `VECTOR_DIM`; otherwise it creates the collection with consistency
level `"Strong"` and builds an HNSW/COSINE index over `vector`. -/
def init_milvus_schema (s : Settings) (store : MilvusStore) : MilvusRun :=
  match store with
  | MilvusStore.collectionWith flds =>
      let readOps := [MilvusOp.hasCollectionQuery, MilvusOp.loadSchema]
      if courseIdValid flds then
        match fieldsDict flds "vector" with
        | none =>
            ⟨readOps, Except.error "Milvus schema invalid: missing vector field"⟩
        | some vf =>
            if vf.dim = some s.VECTOR_DIM then
              ⟨readOps, Except.ok ()⟩
            else
              ⟨readOps, Except.error "Vector dimension mismatch"⟩
      else
        ⟨readOps,
         Except.error "Milvus schema invalid: course_id must be a partition key"⟩
  | MilvusStore.noCollection =>
      ⟨[MilvusOp.hasCollectionQuery,
        MilvusOp.createCollection (milvusKnowledgeFields s)
          "LMS secured semantic course content" "Strong",
        MilvusOp.createIndex "vector" milvusIndexParams],
       Except.ok ()⟩

def MilvusField.toExisting (f : MilvusField) : MilvusExistingField :=
  ⟨f.name, f.is_partition_key, f.dim⟩

/-- Effect of one Milvus operation on the store: creating the collection
materializes its fields when absent; reads and the vector index build do not
change the field schema. -/
def applyMilvusOp (store : MilvusStore) (op : MilvusOp) : MilvusStore :=
  match op, store with
  | MilvusOp.createCollection flds _ _, MilvusStore.noCollection =>
      MilvusStore.collectionWith (flds.map MilvusField.toExisting)
  | _, st => st

def applyMilvusOps (store : MilvusStore) (ops : List MilvusOp) : MilvusStore :=
  ops.foldl applyMilvusOp store

/-! ## Server bootstrap (`server/server.py`, `main`) -/

inductive StartupStep where
  | addMiddleware : StartupStep
  | initRedisSchema : StartupStep
  | initMilvusSchema : StartupStep
  | serveTraffic : StartupStep
deriving DecidableEq

structure MainRun where
  steps : List StartupStep
  result : Except String Unit

/-- `main()`: adds the CORS middleware, runs `init_redis_schema()` then
`init_milvus_schema()`, and only then calls `uvicorn.run(app, port=8000)`.
An exception from either init propagates and `uvicorn.run` is never
reached. -/
def serverMain (s : Settings) (rstore : RedisStore) (mstore : MilvusStore) :
    MainRun :=
  match (init_redis_schema s rstore).result with
  | Except.error e =>
      ⟨[StartupStep.addMiddleware, StartupStep.initRedisSchema], Except.error e⟩
  | Except.ok _ =>
      match (init_milvus_schema s mstore).result with
      | Except.error e =>
          ⟨[StartupStep.addMiddleware, StartupStep.initRedisSchema,
            StartupStep.initMilvusSchema], Except.error e⟩
      | Except.ok _ =>
          ⟨[StartupStep.addMiddleware, StartupStep.initRedisSchema,
            StartupStep.initMilvusSchema, StartupStep.serveTraffic],
           Except.ok ()⟩

/-- A concrete settings value used by witnesses and counterexamples. -/
def exampleSettings : Settings :=
  ⟨"localhost", 6379, "cache_idx", "localhost", 19530, "lms_knowledge", 384⟩

/-- A second concrete settings value, differing from `exampleSettings` in
every store-facing parameter. -/
def otherSettings : Settings :=
  ⟨"redis.internal", 6380, "cache_idx_v2", "milvus.internal", 19531, "kb", 768⟩

/-- An existing Milvus collection whose `vector` field has dimension 999,
different from `exampleSettings.VECTOR_DIM = 384`. -/
def mismatchedKnowledgeFields : List MilvusExistingField :=
  [⟨"course_id", true, none⟩, ⟨"vector", false, some 999⟩]

/-- An existing Milvus collection carrying only the two validated fields:
`doc_ref_id`, `chunk_index` and `created_at` are absent. -/
def knowledgeFieldsMinimal : List MilvusExistingField :=
  [⟨"course_id", true, none⟩, ⟨"vector", false, some 384⟩]

/-- A valid existing Redis attribute set (a superset of the required one). -/
def validCacheAttrs : List String :=
  ["course_id", "vector", "access_count", "last_accessed", "answer"]

/-- A valid existing Milvus field list for `exampleSettings`. -/
def validKnowledgeFields : List MilvusExistingField :=
  [⟨"id", false, none⟩, ⟨"course_id", true, none⟩, ⟨"vector", false, some 384⟩,
   ⟨"doc_ref_id", false, none⟩, ⟨"chunk_index", false, none⟩,
   ⟨"created_at", false, none⟩]

/-! ## Observation helpers for the created schemas -/

/-- Type of the field of a given name in a Redis schema tuple. -/
def redisFieldType (sch : List RedisField) (n : String) : Option RedisFieldType :=
  (sch.find? (fun f => f.name == n)).map RedisField.ftype

/-- Field of a given name in a Milvus creation schema. -/
def milvusFieldNamed (flds : List MilvusField) (n : String) : Option MilvusField :=
  flds.find? (fun f => f.name == n)

/-- The HNSW graph-construction parameters (`M`, `efConstruction`) of the
`vector` field of the Redis schema the source would create under settings
`s`. -/
def redisVectorHNSWParams (s : Settings) : Option (Nat × Nat) :=
  match redisFieldType (redisCacheSchema s) "vector" with
  | some (RedisFieldType.vector _ _ _ _ m ef) => some (m, ef)
  | _ => none

/-! ## Theorems -/

/-- Claim C1: against an existing Redis index missing required fields
(`attrs = [course_id, vector]`, so `access_count` and `last_accessed` are
absent), `init_redis_schema` does NOT fail fast with the schema-mismatch
error: the mismatch `RedisError` is caught by the function's own
`except RedisError:` handler, a further `FT.CREATE` store operation is
attempted over the mismatched store, and the surfaced error is the
index-creation failure.  This contradicts the claim (and the spec's
fail-fast/no-partial-operation requirement); the code is the slip. -/
theorem c1_redis_mismatch_attempts_create :
    ((init_redis_schema exampleSettings
        (RedisStore.indexWith ["course_id", "vector"])).ops.any
          RedisOp.isCreateIndex) = true ∧
    (init_redis_schema exampleSettings
        (RedisStore.indexWith ["course_id", "vector"])).result =
      Except.error "Failed to create Redis index: Index already exists" :=
  ⟨rfl, rfl⟩

/-- Claim C5: when the Redis index does not exist, `init_redis_schema`
creates it (and succeeds) with exactly the declared cache-entry fields:
`course_id` as a tag field, `vector` as an HNSW/FLOAT32/COSINE vector field
of dimension `VECTOR_DIM`, numeric `access_count` and `last_accessed`, under
an index definition whose sole key prefix is `"cache:"`. -/
theorem c5_redis_creation_schema (s : Settings) :
    (init_redis_schema s RedisStore.noIndex).result = Except.ok () ∧
    (init_redis_schema s RedisStore.noIndex).ops =
      [RedisOp.infoQuery,
       RedisOp.createIndex (redisCacheSchema s) redisCacheIndexDefinition []] ∧
    redisFieldType (redisCacheSchema s) "course_id" = some RedisFieldType.tag ∧
    redisFieldType (redisCacheSchema s) "vector" =
      some (RedisFieldType.vector "HNSW" "FLOAT32" s.VECTOR_DIM "COSINE" 16 200) ∧
    redisFieldType (redisCacheSchema s) "access_count" = some RedisFieldType.numeric ∧
    redisFieldType (redisCacheSchema s) "last_accessed" = some RedisFieldType.numeric ∧
    redisCacheIndexDefinition.prefixes = ["cache:"] :=
  ⟨rfl, rfl, rfl, rfl, rfl, rfl, rfl⟩

/-- Claim C6: when the Milvus collection is absent, `init_milvus_schema`
creates it (and succeeds) with `course_id` as an INT64 partition key, a
FLOAT_VECTOR `vector` field of dimension `VECTOR_DIM`, consistency level
`"Strong"`, and then builds an HNSW index with COSINE metric over `vector`. -/
theorem c6_milvus_creation_schema (s : Settings) :
    (init_milvus_schema s MilvusStore.noCollection).result = Except.ok () ∧
    (init_milvus_schema s MilvusStore.noCollection).ops =
      [MilvusOp.hasCollectionQuery,
       MilvusOp.createCollection (milvusKnowledgeFields s)
         "LMS secured semantic course content" "Strong",
       MilvusOp.createIndex "vector" milvusIndexParams] ∧
    (milvusFieldNamed (milvusKnowledgeFields s) "course_id").map
        (fun f => (f.dtype, f.is_partition_key)) =
      some (MilvusDataType.INT64, true) ∧
    (milvusFieldNamed (milvusKnowledgeFields s) "vector").map
        (fun f => (f.dtype, f.dim)) =
      some (MilvusDataType.FLOAT_VECTOR, some s.VECTOR_DIM) ∧
    milvusIndexParams.metric_type = "COSINE" ∧
    milvusIndexParams.index_type = "HNSW" :=
  ⟨rfl, rfl, rfl, rfl, rfl, rfl⟩

/-- Claim C8, counterexample: the HNSW graph-construction parameters do NOT
depend on the configuration surface — no two settings values yield different
(`M`, `efConstruction`) pairs for the created Redis index, and the Milvus
index parameters are a settings-independent constant. -/
theorem c8_params_not_configurable :
    (¬ ∃ s₁ s₂ : Settings, redisVectorHNSWParams s₁ ≠ redisVectorHNSWParams s₂) ∧
    exampleSettings ≠ otherSettings ∧
    redisVectorHNSWParams exampleSettings = redisVectorHNSWParams otherSettings := by
  refine ⟨?_, by decide, rfl⟩
  rintro ⟨s₁, s₂, h⟩
  exact h rfl

/-- Claim C8, amended: the graph-construction parameters used when creating
both indexes are the fixed constants `M = 16` and `efConstruction = 200`,
for every settings value. -/
theorem c8_params_fixed_constants (s : Settings) :
    redisVectorHNSWParams s = some (16, 200) ∧
    milvusIndexParams.M = 16 ∧ milvusIndexParams.efConstruction = 200 :=
  ⟨rfl, rfl, rfl⟩

/-- Claim C2: for every existing Milvus collection whose `vector` field has a
dimension different from `VECTOR_DIM`, `init_milvus_schema` fails during
validation (no write operation is issued), and — since `main` runs it before
`uvicorn.run` — the service never reaches the serve-traffic step, whatever
the Redis store looks like. -/
theorem c2_dim_mismatch_fatal (s : Settings) (flds : List MilvusExistingField)
    (vf : MilvusExistingField)
    (hv : fieldsDict flds "vector" = some vf)
    (hdim : vf.dim ≠ some s.VECTOR_DIM) :
    exceptIsOk (init_milvus_schema s (MilvusStore.collectionWith flds)).result
      = false ∧
    (init_milvus_schema s (MilvusStore.collectionWith flds)).ops.any
      MilvusOp.isWrite = false ∧
    ∀ rstore : RedisStore, StartupStep.serveTraffic ∉
      (serverMain s rstore (MilvusStore.collectionWith flds)).steps := by
  have hnotok : exceptIsOk
      (init_milvus_schema s (MilvusStore.collectionWith flds)).result = false := by
    cases hcv : courseIdValid flds <;>
      simp [init_milvus_schema, hcv, hv, hdim, exceptIsOk]
  have hops : (init_milvus_schema s (MilvusStore.collectionWith flds)).ops.any
      MilvusOp.isWrite = false := by
    cases hcv : courseIdValid flds <;>
      simp [init_milvus_schema, hcv, hv, hdim, MilvusOp.isWrite]
  refine ⟨hnotok, hops, ?_⟩
  intro rstore
  cases hr : (init_redis_schema s rstore).result with
  | error e => simp [serverMain, hr]
  | ok u =>
    cases hm : (init_milvus_schema s (MilvusStore.collectionWith flds)).result with
    | error e => simp [serverMain, hr, hm]
    | ok v => rw [hm] at hnotok; simp [exceptIsOk] at hnotok

/-- Witness for C2 at a concrete input: collection with `vector` dimension
999 against `VECTOR_DIM = 384`. -/
theorem c2_dim_mismatch_fatal_witness :
    exceptIsOk (init_milvus_schema exampleSettings
      (MilvusStore.collectionWith mismatchedKnowledgeFields)).result = false ∧
    (init_milvus_schema exampleSettings
      (MilvusStore.collectionWith mismatchedKnowledgeFields)).ops.any
        MilvusOp.isWrite = false ∧
    ∀ rstore : RedisStore, StartupStep.serveTraffic ∉
      (serverMain exampleSettings rstore
        (MilvusStore.collectionWith mismatchedKnowledgeFields)).steps :=
  c2_dim_mismatch_fatal exampleSettings mismatchedKnowledgeFields
    ⟨"vector", false, some 999⟩ rfl (by decide)

/-- Claim C3, counterexample: an existing Redis index whose attributes are
exactly the four required ones (no `answer`) is accepted, and an existing
Milvus collection lacking `doc_ref_id`, `chunk_index` and `created_at` is
accepted — validation does not report a hard failure for these missing
data-model fields. -/
theorem c3_missing_fields_accepted :
    requiredCacheFields.contains "answer" = false ∧
    (init_redis_schema exampleSettings
      (RedisStore.indexWith requiredCacheFields)).result = Except.ok () ∧
    (knowledgeFieldsMinimal.map MilvusExistingField.name).contains "doc_ref_id"
      = false ∧
    (knowledgeFieldsMinimal.map MilvusExistingField.name).contains "chunk_index"
      = false ∧
    (knowledgeFieldsMinimal.map MilvusExistingField.name).contains "created_at"
      = false ∧
    (init_milvus_schema exampleSettings
      (MilvusStore.collectionWith knowledgeFieldsMinimal)).result
      = Except.ok () := by
  refine ⟨rfl, rfl, rfl, rfl, rfl, rfl⟩

/-- Claim C3, amended: validation of an existing store accepts it exactly
when the Redis index's attributes include `course_id`, `vector`,
`access_count` and `last_accessed`, and the Milvus collection has
`course_id` as a partition key and `vector` at dimension `VECTOR_DIM`;
no other data-model field (`answer`, `doc_ref_id`, `chunk_index`,
`created_at`) is checked. -/
theorem c3_validation_exact_coverage (s : Settings) (attrs : List String)
    (flds : List MilvusExistingField) :
    (exceptIsOk (init_redis_schema s (RedisStore.indexWith attrs)).result = true ↔
      requiredCacheFields.all (fun f => attrs.contains f) = true) ∧
    (exceptIsOk (init_milvus_schema s (MilvusStore.collectionWith flds)).result
        = true ↔
      (courseIdValid flds = true ∧ vectorDimOf flds = some s.VECTOR_DIM)) := by
  constructor
  · cases hsub : requiredCacheFields.all (fun f => attrs.contains f) <;>
      (simp only [init_redis_schema]; rw [hsub]; simp [exceptIsOk])
  · cases hcv : courseIdValid flds
    · simp [init_milvus_schema, hcv, exceptIsOk]
    · cases hfd : fieldsDict flds "vector" with
      | none => simp [init_milvus_schema, hcv, hfd, exceptIsOk, vectorDimOf]
      | some vf =>
        by_cases hd : vf.dim = some s.VECTOR_DIM <;>
          simp [init_milvus_schema, hcv, hfd, hd, exceptIsOk, vectorDimOf]

/-- Claim C4: the serve-traffic step of `main` is reached exactly when both
`init_redis_schema` and `init_milvus_schema` complete without raising; any
error from either prevents the service from serving requests. -/
theorem c4_serve_iff_both_inits_ok (s : Settings) (rstore : RedisStore)
    (mstore : MilvusStore) :
    StartupStep.serveTraffic ∈ (serverMain s rstore mstore).steps ↔
      (exceptIsOk (init_redis_schema s rstore).result = true ∧
       exceptIsOk (init_milvus_schema s mstore).result = true) := by
  cases hr : (init_redis_schema s rstore).result <;>
    cases hm : (init_milvus_schema s mstore).result <;>
      simp [serverMain, hr, hm, exceptIsOk]

/-- Claim C7: constructing `Settings` succeeds exactly when all seven
configuration values are supplied; none has a default. -/
theorem c7_settings_all_required (e : Env) :
    exceptIsOk (Settings.fromEnv e) = true ↔
      (e.REDIS_HOST.isSome = true ∧ e.REDIS_PORT.isSome = true ∧
       e.REDIS_INDEX_NAME.isSome = true ∧ e.MILVUS_HOST.isSome = true ∧
       e.MILVUS_PORT.isSome = true ∧ e.MILVUS_COLLECTION_NAME.isSome = true ∧
       e.VECTOR_DIM.isSome = true) := by
  rcases e with ⟨a, b, c, d, f, g, h⟩
  cases a <;> cases b <;> cases c <;> cases d <;> cases f <;> cases g <;>
    cases h <;> simp [Settings.fromEnv, exceptIsOk]

/-- Claim C9: on a store whose existing index/collection passes validation,
each init function takes the already-exists branch, issues only read
operations, succeeds, and leaves the store state unchanged — so a repeated
run performs no write. -/
theorem c9_idempotent_on_valid_store (s : Settings) (attrs : List String)
    (flds : List MilvusExistingField)
    (hr : requiredCacheFields.all (fun f => attrs.contains f) = true)
    (hc : courseIdValid flds = true)
    (hv : vectorDimOf flds = some s.VECTOR_DIM) :
    init_redis_schema s (RedisStore.indexWith attrs) =
      ⟨[RedisOp.infoQuery], Except.ok ()⟩ ∧
    applyRedisOps (RedisStore.indexWith attrs)
      (init_redis_schema s (RedisStore.indexWith attrs)).ops =
        RedisStore.indexWith attrs ∧
    init_milvus_schema s (MilvusStore.collectionWith flds) =
      ⟨[MilvusOp.hasCollectionQuery, MilvusOp.loadSchema], Except.ok ()⟩ ∧
    applyMilvusOps (MilvusStore.collectionWith flds)
      (init_milvus_schema s (MilvusStore.collectionWith flds)).ops =
        MilvusStore.collectionWith flds := by
  have hred : init_redis_schema s (RedisStore.indexWith attrs) =
      ⟨[RedisOp.infoQuery], Except.ok ()⟩ := by
    simp only [init_redis_schema]; rw [hr]; simp
  have hmil : init_milvus_schema s (MilvusStore.collectionWith flds) =
      ⟨[MilvusOp.hasCollectionQuery, MilvusOp.loadSchema], Except.ok ()⟩ := by
    cases hfd : fieldsDict flds "vector" with
    | none => simp [vectorDimOf, hfd] at hv
    | some vf =>
      have hd : vf.dim = some s.VECTOR_DIM := by
        simpa [vectorDimOf, hfd] using hv
      simp [init_milvus_schema, hc, hfd, hd]
  refine ⟨hred, ?_, hmil, ?_⟩
  · rw [hred]; simp [applyRedisOps, applyRedisOp]
  · rw [hmil]; simp [applyMilvusOps, applyMilvusOp]

/-- Witness for C9 at a concrete input: a Redis index with the four required
attributes plus `answer`, and a Milvus collection with all six knowledge
fields, validated against `VECTOR_DIM = 384`. -/
theorem c9_idempotent_witness :
    init_redis_schema exampleSettings (RedisStore.indexWith validCacheAttrs) =
      ⟨[RedisOp.infoQuery], Except.ok ()⟩ ∧
    applyRedisOps (RedisStore.indexWith validCacheAttrs)
      (init_redis_schema exampleSettings
        (RedisStore.indexWith validCacheAttrs)).ops =
        RedisStore.indexWith validCacheAttrs ∧
    init_milvus_schema exampleSettings
        (MilvusStore.collectionWith validKnowledgeFields) =
      ⟨[MilvusOp.hasCollectionQuery, MilvusOp.loadSchema], Except.ok ()⟩ ∧
    applyMilvusOps (MilvusStore.collectionWith validKnowledgeFields)
      (init_milvus_schema exampleSettings
        (MilvusStore.collectionWith validKnowledgeFields)).ops =
        MilvusStore.collectionWith validKnowledgeFields :=
  c9_idempotent_on_valid_store exampleSettings validCacheAttrs
    validKnowledgeFields rfl rfl rfl

/-- Claim C10: the two stores disagree on the type of `course_id` — the
Milvus creation schema declares it as an INT64 partition key, while the Redis
creation schema declares it as a tag (string) field. -/
theorem c10_course_id_type_disagreement (s : Settings) :
    (milvusFieldNamed (milvusKnowledgeFields s) "course_id").map
        (fun f => (f.dtype, f.is_partition_key)) =
      some (MilvusDataType.INT64, true) ∧
    redisFieldType (redisCacheSchema s) "course_id" = some RedisFieldType.tag :=
  ⟨rfl, rfl⟩

end SemanticCache
